import Mathlib

/-!
Shallow embedding of the Terneo/Welrok thermostat HTTP client
(`custom_components/terneo/thermostat.py` and `custom_components/terneo/const.py`).

Modelling conventions:
* Python integers are `ℤ` (or `ℕ` where the source value is known nonnegative),
  Python floats are idealised as exact rationals `ℚ` (all values the device
  produces are decimal fractions, so the arithmetic in the source is exact on
  them up to float rounding, which we abstract away).
* The wall clock is a rational number of seconds; `time.sleep(1)` suspends for
  exactly one time unit (in reality at least one, which only strengthens the
  lower bounds proved here).
* A `requests.post` round trip is summarised by a `PostOutcome`: the transport
  raised, the body failed to parse as JSON, or a parsed JSON body arrived.
  A parsed body is viewed through the fields the client reads: the `status`
  marker, the `par` triple list, the `success` marker, and the remaining flat
  string-valued entries (`fields`), which carry the status-map keys `t.1` etc.
* Python `dict` built from a `par` list keeps the last duplicate, hence
  parameter lookup returns the last matching triple.
* `int(...)` / `float(...)` applied to a non-numeric string raises in Python;
  those code paths are modelled as skipping the assignment / yielding `none`
  and are exercised by no theorem below (every input considered is numeric).
-/

namespace Terneo

/- Parameter ids from `const.py` (`class ParamNum`). -/
namespace ParamNum

def MODE : ℤ := 2

def CONTROL_TYPE : ℤ := 3

def MANUAL_AIR : ℤ := 4

def MANUAL_FLOOR : ℤ := 5

def AWAY_AIR : ℤ := 6

def AWAY_FLOOR : ℤ := 7

def MIN_TEMP_ADVANCED : ℤ := 14

def MAX_TEMP_ADVANCED : ℤ := 15

def POWER : ℤ := 17

def AIR_CORRECTION : ℤ := 20

def UPPER_LIMIT : ℤ := 26

def UPPER_AIR_LIMIT : ℤ := 33

def LOWER_AIR_LIMIT : ℤ := 34

def BLE_SENSOR_INTERVAL : ℤ := 35

def BLE_SENSOR_BIND : ℤ := 36

def UPPER_WARNING_TEMP : ℤ := 62

def LOWER_WARNING_TEMP : ℤ := 63

def WINDOW_OPEN_CONTROL : ℤ := 122

def POWER_OFF : ℤ := 125

end ParamNum

/- Wire data types from `const.py` (`class DataType`). -/
namespace DataType

def CSTRING : ℤ := 0

def INT8 : ℤ := 1

def UINT8 : ℤ := 2

def INT16 : ℤ := 3

def UINT16 : ℤ := 4

def INT32 : ℤ := 5

def UINT32 : ℤ := 6

def BOOL : ℤ := 7

end DataType

/- Operation modes from `const.py` (`class OperationMode`). -/
namespace OperationMode

def SCHEDULE : ℤ := 0

def MANUAL : ℤ := 3

end OperationMode

/- Control types from `const.py` (`class ControlType`). -/
namespace ControlType

def FLOOR : ℤ := 0

def AIR : ℤ := 1

def AIR_WITH_FLOOR_LIMIT : ℤ := 2

end ControlType

/-- A Python value as produced by `_convert_value`: a string, an int or a bool. -/
inductive PyVal where
  | str (s : String)
  | int (i : ℤ)
  | bool (b : Bool)
deriving DecidableEq

/-- Python truthiness of a `PyVal` (`bool(v)`). -/
def PyVal.isTruthy : PyVal → Bool
  | .str s => s ≠ ""
  | .int i => i ≠ 0
  | .bool b => b

/-- Python `not v` applied to an optional value (`None` is falsy). -/
def pyNot : Option PyVal → Bool
  | none => true
  | some v => ! v.isTruthy

/-- Value of a list of decimal digit characters, `none` when empty or when a
non-digit occurs (Python `int(...)` raises there). -/
def decDigitsVal (cs : List Char) : Option ℕ :=
  if cs.isEmpty then none
  else
    cs.foldl
      (fun acc c =>
        match acc with
        | none => none
        | some n => if c.isDigit then some (n * 10 + (c.toNat - 48)) else none)
      (some 0)

/-- Python `int(s)` on a decimal string (optionally signed), `none` when the
string is not a decimal numeral.  The device transmits all numeric values as
decimal integer strings, so this also models `float(s)` on those strings. -/
def strToInt? (s : String) : Option ℤ :=
  match s.toList with
  | '-' :: rest => (decDigitsVal rest).map (fun n => -(n : ℤ))
  | cs => (decDigitsVal cs).map (fun n => (n : ℤ))

/-- Python `int(q)`: truncation of a rational toward zero. -/
def pyTrunc (q : ℚ) : ℤ := if q < 0 then ⌈q⌉ else ⌊q⌋

/-- The fields of a parsed JSON response body that the client reads.  `fields`
holds the flat string-valued entries of the object other than the specially
modelled keys (`status`, `par`, `success`); the status-map keys `t.1`, `t.5`,
`m.1`, `f.0`, `f.16` live there. -/
structure JsonBody where
  status : Option String
  par : Option (List (ℤ × ℤ × String))
  fields : List (String × String)
  success : Option String
deriving DecidableEq

/-- Python truthiness of the response dict: nonempty. -/
def JsonBody.isTruthy (b : JsonBody) : Bool :=
  b.status.isSome || b.par.isSome || !b.fields.isEmpty || b.success.isSome

/-- The empty JSON object (the initial `self._status = {}`). -/
def emptyBody : JsonBody := { status := none, par := none, fields := [], success := none }

/-- Outcome of one `requests.post` round trip as seen by `_post`. -/
inductive PostOutcome where
  | transportError
  | parseError
  | ok (body : JsonBody)
deriving DecidableEq

/-- The mutable state of a `TerneoThermostat` instance (the fields of
`__init__` that the claims concern; `_is_new_version` is `isNew`). -/
structure ClientState where
  isNew : Bool
  available : Bool
  parameters : List (ℤ × ℤ × String)
  statusCache : JsonBody
  setpoint : Option ℚ
  floorTemperature : Option ℚ
  airTemperature : Option ℚ
  mode : Option ℤ
  relayState : Option Bool
  powerOn : Option Bool
deriving DecidableEq

/-- The state right after `__init__`: empty caches, all derived fields `None`;
`avail` records the outcome of the construction-time liveness probe. -/
def initState (isNew : Bool) (avail : Bool) : ClientState :=
  { isNew := isNew
    available := avail
    parameters := []
    statusCache := emptyBody
    setpoint := none
    floorTemperature := none
    airTemperature := none
    mode := none
    relayState := none
    powerOn := none }

/-- `_post` (thermostat.py lines 81–112), availability and returned value:
transport failure sets `_available = False` and returns `False`; a body that
fails JSON parsing returns `False` leaving availability unchanged; a body with
`status == "timeout"` returns `False` leaving availability unchanged (the
`return False` on line 109 precedes the `self._available = True` on line 111);
any other parsed body sets availability true and is returned. -/
def postStep (avail : Bool) : PostOutcome → Bool × Option JsonBody
  | .transportError => (false, none)
  | .parseError => (avail, none)
  | .ok b => if b.status = some "timeout" then (avail, none) else (true, some b)

/-- Dict comprehension `{p[0]: (p[1], p[2]) for p in result["par"]}` followed by
lookup: the last triple with the given id wins. -/
def lookupParamEntry (ps : List (ℤ × ℤ × String)) (n : ℤ) : Option (ℤ × String) :=
  ps.foldl (fun acc p => if p.1 = n then some (p.2.1, p.2.2) else acc) none

/-- `_convert_value` (lines 149–158).  `none` models Python `int(...)` raising
on a non-numeric string. -/
def convertValue (value : String) (dataType : ℤ) : Option PyVal :=
  if dataType = DataType.BOOL then some (PyVal.bool (value = "1"))
  else if dataType = DataType.INT8 ∨ dataType = DataType.INT16 ∨ dataType = DataType.INT32 then
    (strToInt? value).map PyVal.int
  else if dataType = DataType.UINT8 ∨ dataType = DataType.UINT16 ∨ dataType = DataType.UINT32 then
    (strToInt? value).map PyVal.int
  else some (PyVal.str value)

/-- `_get_param_value` (lines 142–147). -/
def getParamValue (st : ClientState) (n : ℤ) : Option PyVal :=
  match lookupParamEntry st.parameters n with
  | some (t, v) => convertValue v t
  | none => none

/-- `get_parameters` (lines 114–120): issue the read-parameters request; on a
truthy body containing `par`, replace the parameter cache and report success. -/
def getParameters (st : ClientState) (o : PostOutcome) : ClientState × Bool :=
  let p := postStep st.available o
  let st1 := { st with available := p.1 }
  match p.2 with
  | some b =>
      if b.isTruthy && b.par.isSome then ({ st1 with parameters := b.par.getD [] }, true)
      else (st1, false)
  | none => (st1, false)

/-- `get_status` (lines 126–131): issue the read-status request; store the body
when truthy; return the raw `_post` result either way. -/
def getStatus (st : ClientState) (o : PostOutcome) : ClientState × Option JsonBody :=
  let p := postStep st.available o
  let st1 := { st with available := p.1 }
  match p.2 with
  | some b => (if b.isTruthy then { st1 with statusCache := b } else st1, some b)
  | none => (st1, none)

/-- `set_parameters` (lines 122–124): a plain `_post`; only availability is
touched, the request body is `{"sn": sn, "par": params}`. -/
def setParameters (st : ClientState) (ps : List (ℤ × ℤ × String)) (o : PostOutcome) :
    ClientState × Option JsonBody :=
  let _ := ps
  let p := postStep st.available o
  ({ st with available := p.1 }, p.2)

/-- `_temperature_from_api` (lines 160–167). -/
def temperatureFromApi (isNew : Bool) (value : ℤ) : ℚ :=
  if isNew then (value : ℚ) / 10 else (value : ℚ)

/-- `_temperature_to_api` (lines 169–174), at the integer level; the source
wraps the result in `str(...)`. -/
def temperatureToApi (isNew : Bool) (value : ℚ) : ℤ :=
  if isNew then pyTrunc (value * 10) else pyTrunc value

/-- Block `t.1` of `_parse_status` (lines 772–774): `float(data["t.1"]) / 16.0`,
written `mkRat n 16` which is the same rational as `(n : ℚ) / 16`. -/
def parseFloorTemp (st : ClientState) (data : List (String × String)) : ClientState :=
  match List.lookup "t.1" data with
  | some v =>
      match strToInt? v with
      | some n => { st with floorTemperature := some (mkRat n 16) }
      | none => st
  | none => st

/-- Block `t.2` of `_parse_status` (lines 776–778): new generation only. -/
def parseAirTemp (st : ClientState) (data : List (String × String)) : ClientState :=
  if st.isNew then
    match List.lookup "t.2" data with
    | some v =>
        match strToInt? v with
        | some n => { st with airTemperature := some (mkRat n 16) }
        | none => st
    | none => st
  else st

/-- Block `t.5` of `_parse_status` (lines 780–782). -/
def parseSetpoint (st : ClientState) (data : List (String × String)) : ClientState :=
  match List.lookup "t.5" data with
  | some v =>
      match strToInt? v with
      | some n => { st with setpoint := some (mkRat n 16) }
      | none => st
  | none => st

/-- Block `m.1` of `_parse_status` (lines 784–796): the mode value is stored
verbatim unless the device is off, in which case the sentinel `-1` is stored;
off-ness comes from status key `f.16` when present, else from the cached
`POWER_OFF` parameter. -/
def parseMode (st : ClientState) (data : List (String × String)) : ClientState :=
  match List.lookup "m.1" data with
  | some v =>
      match strToInt? v with
      | some mv =>
          let isOn : Bool :=
            match List.lookup "f.16" data with
            | some fv => strToInt? fv = some 0
            | none => pyNot (getParamValue st ParamNum.POWER_OFF)
          if isOn then { st with mode := some mv } else { st with mode := some (-1) }
      | none => st
  | none => st

/-- Block `f.0` of `_parse_status` (lines 798–800). -/
def parseRelay (st : ClientState) (data : List (String × String)) : ClientState :=
  match List.lookup "f.0" data with
  | some v => { st with relayState := some (strToInt? v = some 1) }
  | none => st

/-- `_parse_status` (lines 770–800), the five blocks in source order. -/
def parseStatus (st : ClientState) (data : List (String × String)) : ClientState :=
  parseRelay (parseMode (parseSetpoint (parseAirTemp (parseFloorTemp st data) data) data) data) data

/-- `update` (lines 750–768): read parameters, then status; on both succeeding
parse the status and refresh `_power_on`; fail otherwise. -/
def update (st : ClientState) (o1 o2 : PostOutcome) : ClientState × Bool :=
  let r1 := getParameters st o1
  if r1.2 then
    let r2 := getStatus r1.1 o2
    match r2.2 with
    | some b =>
        if b.isTruthy then
          let st3 := parseStatus r2.1 b.fields
          ({ st3 with powerOn := some (pyNot (getParamValue st3 ParamNum.POWER_OFF)) }, true)
        else (r2.1, false)
    | none => (r2.1, false)
  else (r1.1, false)

/-- `upper_limit` property (lines 241–244). -/
def upperLimit (st : ClientState) : Option PyVal := getParamValue st ParamNum.UPPER_LIMIT

/-- `control_type` property (lines 218–221). -/
def controlType (st : ClientState) : Option PyVal := getParamValue st ParamNum.CONTROL_TYPE

/-- The wire→watts conversion inside the `power_watts` property (lines 301–305). -/
def powerWattsOfValue (w : ℤ) : ℤ := if w ≤ 150 then w * 10 else w * 20 - 1500

/-- `power_watts` property (lines 297–306).  A cached bool compares as 0/1 in
Python `value <= 150`; a cached string would raise there (modelled `none`,
exercised by no theorem). -/
def powerWatts (st : ClientState) : Option ℤ :=
  match getParamValue st ParamNum.POWER with
  | some (.int w) => some (powerWattsOfValue w)
  | some (.bool b) => some (powerWattsOfValue (if b then 1 else 0))
  | some (.str _) => none
  | none => none

/-- The watts→wire conversion in `set_power` (lines 740–743); Python `//` on
nonnegative ints is `Nat` division. -/
def setPowerValue (watts : ℕ) : ℕ :=
  if watts ≤ 1500 then watts / 10 else (watts + 1500) / 20

/-- `upper_air_limit` property (lines 251–256): new generation only. -/
def upperAirLimit (st : ClientState) : Option PyVal :=
  if st.isNew then getParamValue st ParamNum.UPPER_AIR_LIMIT else none

/-- `lower_air_limit` property (lines 258–263). -/
def lowerAirLimit (st : ClientState) : Option PyVal :=
  if st.isNew then getParamValue st ParamNum.LOWER_AIR_LIMIT else none

/-- `min_temp_advanced` property (lines 375–380). -/
def minTempAdvanced (st : ClientState) : Option PyVal :=
  if st.isNew then getParamValue st ParamNum.MIN_TEMP_ADVANCED else none

/-- `max_temp_advanced` property (lines 382–387). -/
def maxTempAdvanced (st : ClientState) : Option PyVal :=
  if st.isNew then getParamValue st ParamNum.MAX_TEMP_ADVANCED else none

/-- `ble_sensor_interval` property (lines 389–394). -/
def bleSensorInterval (st : ClientState) : Option PyVal :=
  if st.isNew then getParamValue st ParamNum.BLE_SENSOR_INTERVAL else none

/-- `ble_sensor_bind` property (lines 396–401). -/
def bleSensorBind (st : ClientState) : Option PyVal :=
  if st.isNew then getParamValue st ParamNum.BLE_SENSOR_BIND else none

/-- `upper_warning_temp` property (lines 403–408). -/
def upperWarningTemp (st : ClientState) : Option PyVal :=
  if st.isNew then getParamValue st ParamNum.UPPER_WARNING_TEMP else none

/-- `lower_warning_temp` property (lines 410–415). -/
def lowerWarningTemp (st : ClientState) : Option PyVal :=
  if st.isNew then getParamValue st ParamNum.LOWER_WARNING_TEMP else none

/-- `window_open_control` property (lines 280–285). -/
def windowOpenControl (st : ClientState) : Option PyVal :=
  if st.isNew then getParamValue st ParamNum.WINDOW_OPEN_CONTROL else none

/-- Python `value / 10.0` on an int-or-bool parameter value (a string would
raise, modelled `none`, exercised by no theorem). -/
def pyDivTen : PyVal → Option ℚ
  | .int v => some ((v : ℚ) / 10)
  | .bool b => some (((if b then 1 else 0) : ℚ) / 10)
  | .str _ => none

/-- `air_correction` property (lines 316–323). -/
def airCorrection (st : ClientState) : Option ℚ :=
  if st.isNew then
    match getParamValue st ParamNum.AIR_CORRECTION with
    | some v => pyDivTen v
    | none => none
  else none

/-- `_temperature_from_api` applied to a cached parameter value (a bool is
0/1 in Python arithmetic; a string would raise, modelled `none`). -/
def temperatureFromApiVal (isNew : Bool) : PyVal → Option ℚ
  | .int v => some (temperatureFromApi isNew v)
  | .bool b => some (temperatureFromApi isNew (if b then 1 else 0))
  | .str _ => none

/-- `away_air_temperature` property (lines 425–432). -/
def awayAirTemperature (st : ClientState) : Option ℚ :=
  if st.isNew then
    match getParamValue st ParamNum.AWAY_AIR with
    | some v => temperatureFromApiVal st.isNew v
    | none => none
  else none

/-- `manual_air_temperature` property (lines 442–449). -/
def manualAirTemperature (st : ClientState) : Option ℚ :=
  if st.isNew then
    match getParamValue st ParamNum.MANUAL_AIR with
    | some v => temperatureFromApiVal st.isNew v
    | none => none
  else none

/-- Python `==` between a `PyVal` and an int (bools compare as 0/1, strings
never equal ints). -/
def pyEqInt (v : PyVal) (k : ℤ) : Bool :=
  match v with
  | .int i => i = k
  | .bool b => (if b then (1 : ℤ) else 0) = k
  | .str _ => false

/-- Parameter id targeted by `set_setpoint` (lines 455–460): Python
`self.control_type or ControlType.FLOOR` replaces a falsy cached control type
(`None` or `0`) by `FLOOR`; a `FLOOR` result selects `MANUAL_FLOOR`, anything
else selects `MANUAL_AIR` on the new generation and `MANUAL_FLOOR` on the old. -/
def setSetpointParam (st : ClientState) : ℤ :=
  let ct : PyVal :=
    match controlType st with
    | some v => if v.isTruthy then v else PyVal.int ControlType.FLOOR
    | none => PyVal.int ControlType.FLOOR
  if pyEqInt ct ControlType.FLOOR then ParamNum.MANUAL_FLOOR
  else if st.isNew then ParamNum.MANUAL_AIR else ParamNum.MANUAL_FLOOR

/-- The bundled write-parameters request of `set_setpoint` (lines 465–469).
`str(OperationMode.MANUAL)` renders the `IntEnum`'s integer value. -/
def setSetpointBundle (st : ClientState) (temperature : ℚ) : List (ℤ × ℤ × String) :=
  [ (ParamNum.POWER_OFF, DataType.BOOL, "0"),
    (ParamNum.MODE, DataType.UINT8, toString OperationMode.MANUAL),
    (setSetpointParam st, if st.isNew then DataType.INT16 else DataType.INT8,
      toString (temperatureToApi st.isNew temperature)) ]

/-- `set_setpoint` (lines 453–473): issue the bundle; on a truthy response
record the new setpoint and report success. -/
def setSetpoint (st : ClientState) (temperature : ℚ) (o : PostOutcome) : ClientState × Bool :=
  let r := setParameters st (setSetpointBundle st temperature) o
  match r.2 with
  | some b => if b.isTruthy then ({ r.1 with setpoint := some temperature }, true) else (r.1, false)
  | none => (r.1, false)

/-- The bundled request of `set_mode` (lines 480–486): the wire value for the
mode parameter is 0 for schedule and 1 otherwise (manual, after the
`ValueError` guard restricting `mode` to `SCHEDULE`/`MANUAL`). -/
def setModeBundle (mode : ℤ) : List (ℤ × ℤ × String) :=
  let apiMode : ℤ := if mode = OperationMode.SCHEDULE then 0 else 1
  [ (ParamNum.POWER_OFF, DataType.BOOL, "0"),
    (ParamNum.MODE, DataType.UINT8, toString apiMode) ]

/-- `turn_on` (lines 489–494). -/
def turnOn (st : ClientState) (o : PostOutcome) : ClientState × Bool :=
  let r := setParameters st [(ParamNum.POWER_OFF, DataType.BOOL, "0")] o
  match r.2 with
  | some b => if b.isTruthy then ({ r.1 with powerOn := some true }, true) else (r.1, false)
  | none => (r.1, false)

/-- `turn_off` (lines 496–501). -/
def turnOff (st : ClientState) (o : PostOutcome) : ClientState × Bool :=
  let r := setParameters st [(ParamNum.POWER_OFF, DataType.BOOL, "1")] o
  match r.2 with
  | some b => if b.isTruthy then ({ r.1 with powerOn := some false }, true) else (r.1, false)
  | none => (r.1, false)

/-- The moment the POST is issued (lines 86–92): entering `_post` at time `t`
with `_last_request = last`, the caller is blocked for one second when less
than a second has elapsed since the last attempt. -/
def requestStartTime (last t : ℚ) : ℚ := if t - last < 1 then t + 1 else t

/-- The four ways one `_post` attempt can end, distinguished by its control
flow. -/
inductive AttemptKind where
  | transportFail
  | jsonParseFail
  | deviceTimeout
  | okResponse
deriving DecidableEq

/-- The `_last_request` recorded by `_post` for an attempt finishing at time
`finish`: the `except` branch (line 95) and the success path (line 99) both
record it, so failed attempts count for the rate limit too. -/
def postRecordedLast (finish : ℚ) : AttemptKind → ℚ
  | .transportFail => finish
  | .jsonParseFail => finish
  | .deviceTimeout => finish
  | .okResponse => finish

/-- Client states reachable from construction through the operations that
mutate cached state. -/
inductive Reachable : ClientState → Prop where
  | init (isNew avail : Bool) : Reachable (initState isNew avail)
  | stepUpdate {st} (o1 o2 : PostOutcome) : Reachable st → Reachable (update st o1 o2).1
  | stepGetParameters {st} (o : PostOutcome) : Reachable st → Reachable (getParameters st o).1
  | stepGetStatus {st} (o : PostOutcome) : Reachable st → Reachable (getStatus st o).1
  | stepSetParameters {st} (ps : List (ℤ × ℤ × String)) (o : PostOutcome) :
      Reachable st → Reachable (setParameters st ps o).1
  | stepSetSetpoint {st} (t : ℚ) (o : PostOutcome) : Reachable st → Reachable (setSetpoint st t o).1
  | stepTurnOn {st} (o : PostOutcome) : Reachable st → Reachable (turnOn st o).1
  | stepTurnOff {st} (o : PostOutcome) : Reachable st → Reachable (turnOff st o).1

/-- The read-parameters response of the end-to-end scenario: `par` contains
the triple `[26, 2, "35"]` (upper limit, uint8, "35"). -/
def scenarioParBody : JsonBody :=
  { status := none, par := some [(26, 2, "35")], fields := [], success := none }

/-- The status response of the end-to-end scenario:
`{"t.1":"384","t.5":"320","m.1":"3","f.0":"1"}`. -/
def scenarioStatusBody : JsonBody :=
  { status := none, par := none,
    fields := [("t.1", "384"), ("t.5", "320"), ("m.1", "3"), ("f.0", "1")],
    success := none }

/-- The client state after a new-generation client runs the scenario's update
cycle. -/
def scenarioState : ClientState :=
  (update (initState true false) (PostOutcome.ok scenarioParBody)
    (PostOutcome.ok scenarioStatusBody)).1

lemma getParameters_frame (st : ClientState) (o : PostOutcome) :
    (getParameters st o).1.isNew = st.isNew ∧
    (getParameters st o).1.statusCache = st.statusCache ∧
    (getParameters st o).1.setpoint = st.setpoint ∧
    (getParameters st o).1.floorTemperature = st.floorTemperature ∧
    (getParameters st o).1.airTemperature = st.airTemperature ∧
    (getParameters st o).1.mode = st.mode ∧
    (getParameters st o).1.relayState = st.relayState ∧
    (getParameters st o).1.powerOn = st.powerOn := by
  unfold getParameters postStep
  cases o <;> simp
  split <;> split <;> simp

lemma getStatus_frame (st : ClientState) (o : PostOutcome) :
    (getStatus st o).1.isNew = st.isNew ∧
    (getStatus st o).1.parameters = st.parameters ∧
    (getStatus st o).1.setpoint = st.setpoint ∧
    (getStatus st o).1.floorTemperature = st.floorTemperature ∧
    (getStatus st o).1.airTemperature = st.airTemperature ∧
    (getStatus st o).1.mode = st.mode ∧
    (getStatus st o).1.relayState = st.relayState ∧
    (getStatus st o).1.powerOn = st.powerOn := by
  unfold getStatus postStep
  cases o <;> simp
  split <;> split <;> simp

lemma getStatus_cache_of_fail (st : ClientState) (o : PostOutcome)
    (h : ∀ b, (getStatus st o).2 = some b → b.isTruthy = false) :
    (getStatus st o).1.statusCache = st.statusCache := by
  unfold getStatus postStep at h ⊢
  cases o <;> simp_all
  split at h <;> simp_all

lemma parseFloorTemp_frame (st : ClientState) (d : List (String × String)) :
    (parseFloorTemp st d).isNew = st.isNew ∧
    (parseFloorTemp st d).airTemperature = st.airTemperature := by
  unfold parseFloorTemp
  split <;> (try split) <;> simp

lemma parseSetpoint_frame (st : ClientState) (d : List (String × String)) :
    (parseSetpoint st d).isNew = st.isNew ∧
    (parseSetpoint st d).airTemperature = st.airTemperature := by
  unfold parseSetpoint
  split <;> (try split) <;> simp

lemma parseMode_frame (st : ClientState) (d : List (String × String)) :
    (parseMode st d).isNew = st.isNew ∧
    (parseMode st d).airTemperature = st.airTemperature := by
  unfold parseMode
  split <;> (try split) <;> (try split) <;> (try simp) <;> (try split) <;> simp

lemma parseRelay_frame (st : ClientState) (d : List (String × String)) :
    (parseRelay st d).isNew = st.isNew ∧
    (parseRelay st d).airTemperature = st.airTemperature := by
  unfold parseRelay
  split <;> simp

lemma parseAirTemp_isNew (st : ClientState) (d : List (String × String)) :
    (parseAirTemp st d).isNew = st.isNew := by
  unfold parseAirTemp
  split <;> (try split) <;> (try split) <;> simp

lemma parseAirTemp_old (st : ClientState) (d : List (String × String))
    (h : st.isNew = false) : parseAirTemp st d = st := by
  simp [parseAirTemp, h]

lemma parseStatus_isNew (st : ClientState) (d : List (String × String)) :
    (parseStatus st d).isNew = st.isNew := by
  unfold parseStatus
  rw [(parseRelay_frame _ _).1, (parseMode_frame _ _).1, (parseSetpoint_frame _ _).1,
    parseAirTemp_isNew, (parseFloorTemp_frame _ _).1]

lemma parseStatus_air_old (st : ClientState) (d : List (String × String))
    (h : st.isNew = false) : (parseStatus st d).airTemperature = st.airTemperature := by
  unfold parseStatus
  rw [(parseRelay_frame _ _).2, (parseMode_frame _ _).2, (parseSetpoint_frame _ _).2,
    parseAirTemp_old _ _ (by rw [(parseFloorTemp_frame st d).1]; exact h),
    (parseFloorTemp_frame _ _).2]

lemma update_isNew (st : ClientState) (o1 o2 : PostOutcome) :
    (update st o1 o2).1.isNew = st.isNew := by
  have hp := (getParameters_frame st o1).1
  have hs := (getStatus_frame (getParameters st o1).1 o2).1
  simp only [update]
  split
  · split
    · split
      · simp only []
        rw [parseStatus_isNew]
        simp_all
      · simp_all
    · simp_all
  · simp_all

lemma update_air_old (st : ClientState) (o1 o2 : PostOutcome) (h : st.isNew = false) :
    (update st o1 o2).1.airTemperature = st.airTemperature := by
  have hp := getParameters_frame st o1
  have hs := getStatus_frame (getParameters st o1).1 o2
  simp only [update]
  split
  · split
    · split
      · simp only []
        rw [parseStatus_air_old]
        · simp_all
        · rw [hs.1, hp.1]; exact h
      · simp_all
    · simp_all
  · simp_all

lemma setParameters_frame (st : ClientState) (ps : List (ℤ × ℤ × String)) (o : PostOutcome) :
    (setParameters st ps o).1.isNew = st.isNew ∧
    (setParameters st ps o).1.airTemperature = st.airTemperature := by
  simp [setParameters]

lemma setSetpoint_frame (st : ClientState) (t : ℚ) (o : PostOutcome) :
    (setSetpoint st t o).1.isNew = st.isNew ∧
    (setSetpoint st t o).1.airTemperature = st.airTemperature := by
  have hf := setParameters_frame st (setSetpointBundle st t) o
  simp only [setSetpoint]
  split <;> (try split) <;> simp_all

lemma turnOn_frame (st : ClientState) (o : PostOutcome) :
    (turnOn st o).1.isNew = st.isNew ∧
    (turnOn st o).1.airTemperature = st.airTemperature := by
  have hf := setParameters_frame st [(ParamNum.POWER_OFF, DataType.BOOL, "0")] o
  simp only [turnOn]
  split <;> (try split) <;> simp_all

lemma turnOff_frame (st : ClientState) (o : PostOutcome) :
    (turnOff st o).1.isNew = st.isNew ∧
    (turnOff st o).1.airTemperature = st.airTemperature := by
  have hf := setParameters_frame st [(ParamNum.POWER_OFF, DataType.BOOL, "1")] o
  simp only [turnOff]
  split <;> (try split) <;> simp_all

lemma reachable_old_air {st : ClientState} (h : Reachable st) (hn : st.isNew = false) :
    st.airTemperature = none := by
  induction h with
  | init isNew avail => simp [initState]
  | stepUpdate o1 o2 hr ih =>
    next st' =>
      have hn' : st'.isNew = false := by rw [update_isNew] at hn; exact hn
      rw [update_air_old st' o1 o2 hn']
      exact ih hn'
  | stepGetParameters o hr ih =>
    next st' =>
      have hn' : st'.isNew = false := by rw [(getParameters_frame st' o).1] at hn; exact hn
      rw [(getParameters_frame st' o).2.2.2.2.1]
      exact ih hn'
  | stepGetStatus o hr ih =>
    next st' =>
      have hn' : st'.isNew = false := by rw [(getStatus_frame st' o).1] at hn; exact hn
      rw [(getStatus_frame st' o).2.2.2.2.1]
      exact ih hn'
  | stepSetParameters ps o hr ih =>
    next st' =>
      have hn' : st'.isNew = false := by rw [(setParameters_frame st' ps o).1] at hn; exact hn
      rw [(setParameters_frame st' ps o).2]
      exact ih hn'
  | stepSetSetpoint t o hr ih =>
    next st' =>
      have hn' : st'.isNew = false := by rw [(setSetpoint_frame st' t o).1] at hn; exact hn
      rw [(setSetpoint_frame st' t o).2]
      exact ih hn'
  | stepTurnOn o hr ih =>
    next st' =>
      have hn' : st'.isNew = false := by rw [(turnOn_frame st' o).1] at hn; exact hn
      rw [(turnOn_frame st' o).2]
      exact ih hn'
  | stepTurnOff o hr ih =>
    next st' =>
      have hn' : st'.isNew = false := by rw [(turnOff_frame st' o).1] at hn; exact hn
      rw [(turnOff_frame st' o).2]
      exact ih hn'

/-- C1, counterexample to the claim as stated: a run of the update cycle whose
parameter read succeeds (the body carries a `par` list) and whose status read
fails with a transport error reports failure, yet the cached parameter table
has been replaced — the cache is not left entirely unchanged. -/
theorem claim1_counterexample :
    (update (initState false false)
        (PostOutcome.ok { status := none, par := some [(26, 2, "35")], fields := [], success := none })
        PostOutcome.transportError).2 = false ∧
    ¬ ((update (initState false false)
        (PostOutcome.ok { status := none, par := some [(26, 2, "35")], fields := [], success := none })
        PostOutcome.transportError).1.parameters = (initState false false).parameters) := by
  decide

/-- C1 (corrected): a run of the update cycle that reports failure leaves the
status map and every derived field (setpoint, floor temperature, air
temperature, mode, relay state, power flag) unchanged, but not the whole
cache: the parameter table is replaced as soon as the parameter read alone
succeeds, even when the subsequent status read fails. -/
theorem claim1_failed_cycle (st : ClientState) (o1 o2 : PostOutcome)
    (h : (update st o1 o2).2 = false) :
    (update st o1 o2).1.statusCache = st.statusCache ∧
    (update st o1 o2).1.setpoint = st.setpoint ∧
    (update st o1 o2).1.floorTemperature = st.floorTemperature ∧
    (update st o1 o2).1.airTemperature = st.airTemperature ∧
    (update st o1 o2).1.mode = st.mode ∧
    (update st o1 o2).1.relayState = st.relayState ∧
    (update st o1 o2).1.powerOn = st.powerOn ∧
    ((getParameters st o1).2 = true →
      (update st o1 o2).1.parameters = (getParameters st o1).1.parameters) := by
  have hp := getParameters_frame st o1
  have hs := getStatus_frame (getParameters st o1).1 o2
  simp only [update] at h ⊢
  split at h
  · next hok =>
    split at h
    · next b hret =>
      split at h
      · simp at h
      · next hnt =>
        have hcache : (getStatus (getParameters st o1).1 o2).1.statusCache =
            (getParameters st o1).1.statusCache := by
          apply getStatus_cache_of_fail
          intro b' hb'
          rw [hret] at hb'
          cases hb'
          simpa using hnt
        simp only [hok, if_true, hret]
        rw [if_neg hnt]
        simp_all
    · next hret =>
      have hcache : (getStatus (getParameters st o1).1 o2).1.statusCache =
          (getParameters st o1).1.statusCache := by
        apply getStatus_cache_of_fail
        intro b' hb'
        rw [hret] at hb'
        cases hb'
      simp only [hok, if_true, hret]
      simp_all
  · next hok =>
    simp only [Bool.not_eq_true] at hok
    rw [if_neg (by simp [hok])]
    simp_all

/-- Witness for C1: the corrected theorem applied to a concrete failing cycle. -/
theorem claim1_witness :
    (update (initState false false) PostOutcome.transportError PostOutcome.transportError).1.setpoint =
      (initState false false).setpoint := by
  exact (claim1_failed_cycle (initState false false) PostOutcome.transportError
    PostOutcome.transportError (by decide)).2.1

/-- C2, counterexample to the claim as stated: a response that parses as JSON
but whose `status` field equals `"timeout"` does not restore availability —
`_post` returns before the `self._available = True` line, so a previously
unavailable device stays unavailable. -/
theorem claim2_counterexample :
    ¬ ((postStep false (PostOutcome.ok
        { status := some "timeout", par := none, fields := [], success := none })).1 = true) := by
  decide

/-- C2 (corrected): on a response that parses as JSON, availability is set to
true unless the body's `status` field equals `"timeout"`, in which case
`_post` returns failure first and availability is left unchanged. -/
theorem claim2_amended (avail : Bool) (b : JsonBody) :
    (postStep avail (PostOutcome.ok b)).1 =
      if b.status = some "timeout" then avail else true := by
  simp only [postStep]
  split <;> simp

/-- C3 (code-bug evaluation): `set_mode` encodes schedule/manual as wire values
`"0"`/`"1"` as its own comment documents, but the bundle sent by
`set_setpoint` carries the mode triple `(2, 2, "3")` — the rendering of
`OperationMode.MANUAL` — instead of the documented wire value `"1"`, on both
generations (shown here at setpoint 21). -/
theorem claim3_setpoint_mode_value :
    setModeBundle OperationMode.SCHEDULE = [(125, 7, "0"), (2, 2, "0")] ∧
    setModeBundle OperationMode.MANUAL = [(125, 7, "0"), (2, 2, "1")] ∧
    setSetpointBundle (initState false false) 21 = [(125, 7, "0"), (2, 2, "3"), (5, 1, "21")] ∧
    setSetpointBundle (initState true false) 21 = [(125, 7, "0"), (2, 2, "3"), (5, 3, "210")] := by
  have hnew : temperatureToApi true 21 = 210 := by
    rw [temperatureToApi, if_pos rfl]
    norm_num [pyTrunc]
  have hold : temperatureToApi false 21 = 21 := by
    rw [temperatureToApi, if_neg (by simp)]
    norm_num [pyTrunc]
  refine ⟨by decide, by decide, ?_, ?_⟩
  · simp only [setSetpointBundle, initState, hold]
    decide
  · simp only [setSetpointBundle, initState, hnew]
    decide

/-- C4: with floats idealised as exact rationals, the temperature codec
round-trips: decoding an encoded representable value (any multiple of 0.1 °C
for the new generation, any whole degree for the old) returns it exactly, and
encoding a decoded wire integer returns the integer, for both generations. -/
theorem claim4_temperature_roundtrip (k x : ℤ) :
    temperatureFromApi true (temperatureToApi true ((k : ℚ) / 10)) = (k : ℚ) / 10 ∧
    temperatureFromApi false (temperatureToApi false ((k : ℚ))) = (k : ℚ) ∧
    temperatureToApi true (temperatureFromApi true x) = x ∧
    temperatureToApi false (temperatureFromApi false x) = x := by
  have hTrunc : ∀ m : ℤ, pyTrunc (m : ℚ) = m := by
    intro m
    unfold pyTrunc
    split
    · exact Int.ceil_intCast m
    · exact Int.floor_intCast m
  have h10 : ((k : ℚ) / 10) * 10 = (k : ℚ) := by
    field_simp
  have h10x : ((x : ℚ) / 10) * 10 = (x : ℚ) := by
    field_simp
  refine ⟨?_, ?_, ?_, ?_⟩
  · simp only [temperatureFromApi, temperatureToApi, if_true, h10, hTrunc]
  · simp only [temperatureFromApi, temperatureToApi, if_false, hTrunc]
    simp
  · simp only [temperatureFromApi, temperatureToApi, if_true, h10x, hTrunc]
  · simp only [temperatureFromApi, temperatureToApi, if_false, hTrunc]
    simp [hTrunc]

/-- C5: end-to-end scenario on a new-generation client — after an update cycle
whose parameter response contains the triple `[26, 2, "35"]` and whose status
response is `{"t.1":"384","t.5":"320","m.1":"3","f.0":"1"}`, the cycle
succeeds, the upper-limit getter returns 35, the floor temperature is 24, the
setpoint is 20, the mode is manual (3, since `f.16` is absent and no
power-off parameter is cached), and the relay is on. -/
theorem claim5_end_to_end :
    (update (initState true false) (PostOutcome.ok scenarioParBody)
      (PostOutcome.ok scenarioStatusBody)).2 = true ∧
    upperLimit scenarioState = some (PyVal.int 35) ∧
    scenarioState.floorTemperature = some 24 ∧
    scenarioState.setpoint = some 20 ∧
    scenarioState.mode = some 3 ∧
    scenarioState.relayState = some true := by
  decide

/-- C6: when the parameter read of an update cycle succeeds but the status
read fails (returns no body, or a falsy one), the cycle reports failure and
the cached floor temperature, setpoint and mode are exactly as before. -/
theorem claim6_status_read_failure (st : ClientState) (o1 o2 : PostOutcome)
    (h1 : (getParameters st o1).2 = true)
    (h2 : ∀ b, (getStatus (getParameters st o1).1 o2).2 = some b → b.isTruthy = false) :
    (update st o1 o2).2 = false ∧
    (update st o1 o2).1.floorTemperature = st.floorTemperature ∧
    (update st o1 o2).1.setpoint = st.setpoint ∧
    (update st o1 o2).1.mode = st.mode := by
  have hp := getParameters_frame st o1
  have hs := getStatus_frame (getParameters st o1).1 o2
  simp only [update, h1, if_true]
  split
  · next b hret =>
    have hb := h2 b hret
    rw [if_neg (by simp [hb])]
    simp_all
  · simp_all

/-- Witness for C6: a concrete cycle whose parameter read succeeds and whose
status read fails with a transport error. -/
theorem claim6_witness :
    (update (initState false false)
        (PostOutcome.ok { status := none, par := some [(26, 2, "35")], fields := [], success := none })
        PostOutcome.transportError).2 = false := by
  refine (claim6_status_read_failure (initState false false)
    (PostOutcome.ok { status := none, par := some [(26, 2, "35")], fields := [], success := none })
    PostOutcome.transportError (by decide) ?_).1
  intro b hb
  simp [getStatus, postStep] at hb

/-- C7: the connected-power codec — `power_watts` decodes a cached wire value
`w` as `w*10` for `w ≤ 150` and `w*20 - 1500` above, `set_power` encodes
watts as `watts/10` (integer division) up to 1500 and `(watts+1500)/20`
above, and decoding the encoded value never exceeds the original and differs
from it by less than one wire step (10 below the boundary, 20 above). -/
theorem claim7_power_roundtrip (st : ClientState) (w : ℤ) (v : ℕ) :
    (getParamValue st ParamNum.POWER = some (PyVal.int w) →
      powerWatts st = some (powerWattsOfValue w)) ∧
    (w ≤ 150 → powerWattsOfValue w = w * 10) ∧
    (150 < w → powerWattsOfValue w = w * 20 - 1500) ∧
    (v ≤ 1500 → setPowerValue v = v / 10) ∧
    (1500 < v → setPowerValue v = (v + 1500) / 20) ∧
    powerWattsOfValue (setPowerValue v) ≤ (v : ℤ) ∧
    (v ≤ 1500 → (v : ℤ) - powerWattsOfValue (setPowerValue v) < 10) ∧
    (1500 < v → (v : ℤ) - powerWattsOfValue (setPowerValue v) < 20) := by
  refine ⟨?_, ?_, ?_, ?_, ?_, ?_, ?_, ?_⟩
  · intro h
    simp [powerWatts, h]
  · intro h
    simp [powerWattsOfValue, h]
  · intro h
    rw [powerWattsOfValue, if_neg (by omega)]
  · intro h
    simp [setPowerValue, h]
  · intro h
    rw [setPowerValue, if_neg (by omega)]
  · unfold setPowerValue powerWattsOfValue
    split <;> split <;> omega
  · intro h
    unfold setPowerValue powerWattsOfValue
    split <;> split <;> omega
  · intro h
    unfold setPowerValue powerWattsOfValue
    split <;> split <;> omega

/-- Witness for C7 at watts 1000 and 2000, wire values 100 and 200. -/
theorem claim7_witness :
    powerWattsOfValue 100 = 1000 ∧
    setPowerValue 2000 = 175 ∧
    (2000 : ℤ) - powerWattsOfValue (setPowerValue 2000) < 20 ∧
    setPowerValue 1000 = 100 ∧
    (1000 : ℤ) - powerWattsOfValue (setPowerValue 1000) < 10 ∧
    powerWattsOfValue 200 = 2500 := by
  have h1 := claim7_power_roundtrip (initState false false) 100 2000
  have h2 := claim7_power_roundtrip (initState false false) 200 1000
  exact ⟨(h1.2.1 (by decide)).trans (by norm_num),
    (h1.2.2.2.2.1 (by decide)).trans (by norm_num),
    h1.2.2.2.2.2.2.2 (by decide),
    (h2.2.2.2.1 (by decide)).trans (by norm_num),
    h2.2.2.2.2.2.2.1 (by decide),
    (h2.2.2.1 (by decide)).trans (by norm_num)⟩

/-- C8: the rate limiter — whatever the outcome of the previous attempt (its
finish time is recorded as `_last_request` in every branch), the next request
starts at least one second after the previous request started, the caller
being blocked by the sleep when it calls sooner. -/
theorem claim8_rate_limit (l0 t1 f1 t2 : ℚ) (o1 : AttemptKind)
    (h1 : requestStartTime l0 t1 ≤ f1) (h2 : f1 ≤ t2) :
    postRecordedLast f1 o1 = f1 ∧
    requestStartTime (postRecordedLast f1 o1) t2 ≥ requestStartTime l0 t1 + 1 := by
  have hrec : postRecordedLast f1 o1 = f1 := by cases o1 <;> rfl
  refine ⟨hrec, ?_⟩
  rw [hrec]
  rcases lt_or_le (t2 - f1) 1 with h | h
  · rw [requestStartTime, if_pos h]
    linarith
  · rw [requestStartTime, if_neg (not_lt.mpr h)]
    linarith

/-- Witness for C8: two back-to-back attempts, the first failing in
transport. -/
theorem claim8_witness :
    postRecordedLast 2 AttemptKind.transportFail = 2 ∧
    requestStartTime (postRecordedLast 2 AttemptKind.transportFail) 2 ≥ requestStartTime 0 2 + 1 := by
  exact claim8_rate_limit 0 2 2 2 AttemptKind.transportFail
    (by norm_num [requestStartTime]) (by norm_num)

/-- C9: in every reachable state of an old-generation client, every
generation-dependent getter — air temperature, air limits, advanced floor
limits, warning thresholds, wireless-sensor interval and bind, window-open
control, air correction, away/manual air temperature — returns `none`. -/
theorem claim9_old_generation_absent (st : ClientState) (h : Reachable st)
    (hn : st.isNew = false) :
    st.airTemperature = none ∧
    upperAirLimit st = none ∧ lowerAirLimit st = none ∧
    minTempAdvanced st = none ∧ maxTempAdvanced st = none ∧
    upperWarningTemp st = none ∧ lowerWarningTemp st = none ∧
    bleSensorInterval st = none ∧ bleSensorBind st = none ∧
    windowOpenControl st = none ∧ airCorrection st = none ∧
    awayAirTemperature st = none ∧ manualAirTemperature st = none := by
  refine ⟨reachable_old_air h hn, ?_, ?_, ?_, ?_, ?_, ?_, ?_, ?_, ?_, ?_, ?_, ?_⟩ <;>
    simp [upperAirLimit, lowerAirLimit, minTempAdvanced, maxTempAdvanced,
      upperWarningTemp, lowerWarningTemp, bleSensorInterval, bleSensorBind,
      windowOpenControl, airCorrection, awayAirTemperature, manualAirTemperature, hn]

/-- Witness for C9: an old-generation client after one (failed) update cycle. -/
theorem claim9_witness :
    (update (initState false false) PostOutcome.transportError PostOutcome.transportError).1.airTemperature = none ∧
    airCorrection (update (initState false false) PostOutcome.transportError PostOutcome.transportError).1 = none := by
  have h := claim9_old_generation_absent _
    (Reachable.stepUpdate PostOutcome.transportError PostOutcome.transportError
      (Reachable.init false false))
    (by decide)
  exact ⟨h.1, h.2.2.2.2.2.2.2.2.2.2.1⟩

/-- C10: `set_setpoint` targets the manual-floor parameter (id 5) whenever the
cached control type is absent or floor (0), and on every old-generation
client; among the well-formed control types 0–2 it targets the manual-air
parameter (id 4) exactly on a new-generation client whose cached control type
is 1 or 2; the bundle's parameter ids are power-off, mode, and the selected
target. -/
theorem claim10_setpoint_parameter_choice (st : ClientState) (t : ℚ) :
    (st.isNew = false → setSetpointParam st = ParamNum.MANUAL_FLOOR) ∧
    (controlType st = none → setSetpointParam st = ParamNum.MANUAL_FLOOR) ∧
    (controlType st = some (PyVal.int ControlType.FLOOR) →
      setSetpointParam st = ParamNum.MANUAL_FLOOR) ∧
    ((controlType st = none ∨ controlType st = some (PyVal.int 0) ∨
        controlType st = some (PyVal.int 1) ∨ controlType st = some (PyVal.int 2)) →
      (setSetpointParam st = ParamNum.MANUAL_AIR ↔
        st.isNew = true ∧ (controlType st = some (PyVal.int 1) ∨
          controlType st = some (PyVal.int 2)))) ∧
    (setSetpointBundle st t).map (fun p => p.1) =
      [ParamNum.POWER_OFF, ParamNum.MODE, setSetpointParam st] := by
  refine ⟨?_, ?_, ?_, ?_, by simp [setSetpointBundle]⟩
  · intro h
    unfold setSetpointParam
    simp only [h]
    split <;> simp [ParamNum.MANUAL_FLOOR]
  · intro h
    simp [setSetpointParam, h, pyEqInt, ControlType.FLOOR]
  · intro h
    simp [setSetpointParam, h, pyEqInt, PyVal.isTruthy, ControlType.FLOOR]
  · intro h
    cases hn : st.isNew
    · have h5 : setSetpointParam st = ParamNum.MANUAL_FLOOR := by
        unfold setSetpointParam
        simp only [hn]
        split <;> simp [ParamNum.MANUAL_FLOOR]
      simp [h5, ParamNum.MANUAL_FLOOR, ParamNum.MANUAL_AIR, hn]
    · rcases h with h | h | h | h <;>
        simp [setSetpointParam, h, pyEqInt, PyVal.isTruthy, ControlType.FLOOR, hn,
          ParamNum.MANUAL_FLOOR, ParamNum.MANUAL_AIR]

/-- Witness for C10: a new-generation client with cached control type 1
targets id 4; a fresh old-generation client targets id 5. -/
theorem claim10_witness :
    setSetpointParam { (initState true false) with parameters := [(3, 2, "1")] } = ParamNum.MANUAL_AIR ∧
    setSetpointParam (initState false false) = ParamNum.MANUAL_FLOOR := by
  constructor
  · exact ((claim10_setpoint_parameter_choice
      { (initState true false) with parameters := [(3, 2, "1")] } 0).2.2.2.1
        (Or.inr (Or.inr (Or.inl (by decide))))).mpr ⟨rfl, Or.inl (by decide)⟩
  · exact (claim10_setpoint_parameter_choice (initState false false) 0).1 rfl

end Terneo
